import Mathlib

/-!
Verification of the ETL-Pipelines repository against its specification.

The development shallowly embeds the three pipelines of the repository:

* `AirQuality.*` — the files under `ETL Air Quality API/`
  (`extract.py`, `transform.py`, `load.py`, `run_pipeline.py`);
* `Churn.*` — `ETL Pipeline 2/scripts/transform.py`;
* `ChurnValidate.*` — `ETA pipeline 2/scripts/validate.py`.

Modelling conventions:

* Python floats that can be NaN (pandas nullable numeric cells) are
  `Option ℚ`, with `none` standing for NaN/null.  Arithmetic on such
  values propagates `none` (as NaN propagates in Python), and ordered
  comparisons against NaN are `false` (as in IEEE/Python).
* pandas `Series.get(key, default)` inside the pipeline's only call site
  always finds the key (the record builder materialises every required
  column), so it returns the stored, possibly-NaN value; the embedding
  mirrors that call-site behaviour.
* `range(0, stop, step)` for `step ≥ 1` is the documented closed form:
  the multiples of `step` below `stop`, of which there are
  `⌈stop/step⌉ = (stop + step - 1) / step`.
* Remote calls (HTTP fetch, store insert) are oracles passed in as
  functions: per attempt they either succeed or return an error string.
-/

/-! ### NaN-aware arithmetic on `Option ℚ` (Python float semantics) -/

/-- Multiplication where `none` is NaN: `NaN * k = NaN`. -/
def nanMul (x : Option ℚ) (k : ℚ) : Option ℚ := x.map (fun v => v * k)

/-- Addition where `none` is NaN: NaN propagates. -/
def nanAdd : Option ℚ → Option ℚ → Option ℚ
  | some a, some b => some (a + b)
  | _, _ => none

/-- Python `x > c` where `x` may be NaN: any comparison with NaN is false. -/
def nanGt (x : Option ℚ) (c : ℚ) : Bool :=
  match x with
  | none => false
  | some v => decide (c < v)

/-- Python `x < c` where `x` may be NaN. -/
def nanLt (x : Option ℚ) (c : ℚ) : Bool :=
  match x with
  | none => false
  | some v => decide (v < c)

/-- pandas `Series.between(lo, hi)` (inclusive on both ends) on a
possibly-NaN value: false for NaN. -/
def nanBetween (x : Option ℚ) (lo hi : ℚ) : Bool :=
  match x with
  | none => false
  | some v => decide (lo ≤ v) && decide (v ≤ hi)

namespace AirQuality

namespace Transform

/-- `REQUIRED_COLUMNS` of `transform.py`, as field selectors of `Row` below. -/
def REQUIRED_COLUMNS : List String :=
  ["pm10", "pm2_5", "carbon_monoxide", "nitrogen_dioxide", "sulphur_dioxide", "ozone", "uv_index"]

/-- One flattened record as built by `transform_raw_to_df` (`transform.py`
lines 60–66): city, timestamp, and the seven required metric columns, each
possibly null.  Timestamps are modelled as hours since an epoch (`ℕ`). -/
structure Row where
  city : String
  time : ℕ
  pm10 : Option ℚ
  pm2_5 : Option ℚ
  carbon_monoxide : Option ℚ
  nitrogen_dioxide : Option ℚ
  sulphur_dioxide : Option ℚ
  ozone : Option ℚ
  uv_index : Option ℚ
deriving DecidableEq, Repr

/-- `compute_aqi` (`transform.py` lines 13–25): null pm2.5 gives a null
label, otherwise the first matching threshold band. -/
def compute_aqi : Option ℚ → Option String
  | none => none
  | some v =>
    if v ≤ 50 then some "Good"
    else if v ≤ 100 then some "Moderate"
    else if v ≤ 200 then some "Unhealthy"
    else if v ≤ 300 then some "Very Unhealthy"
    else some "Hazardous"

/-- `compute_severity` (`transform.py` lines 27–35).  At its only call site
(`df.apply(..., axis=1)` after `pd.to_numeric`) every key is present, so
`row.get(col, 0)` returns the stored value — NaN when the metric is
missing — and the weighted sum propagates NaN. -/
def compute_severity (r : Row) : Option ℚ :=
  nanAdd (nanAdd (nanAdd (nanAdd (nanAdd
    (nanMul r.pm2_5 5)
    (nanMul r.pm10 3))
    (nanMul r.nitrogen_dioxide 4))
    (nanMul r.sulphur_dioxide 4))
    (nanMul r.carbon_monoxide 2))
    (nanMul r.ozone 3)

/-- The zero-fill composite score described by the specification ("any
missing field contributes zero").  Modelled from the spec for comparison
with `compute_severity`; a missing metric contributes `0`. -/
def severity_zero_fill (r : Row) : ℚ :=
  r.pm2_5.getD 0 * 5 + r.pm10.getD 0 * 3 + r.nitrogen_dioxide.getD 0 * 4 +
    r.sulphur_dioxide.getD 0 * 4 + r.carbon_monoxide.getD 0 * 2 + r.ozone.getD 0 * 3

/-- `compute_risk` (`transform.py` lines 37–43).  The argument is the
possibly-NaN severity; NaN compares false against every threshold, so the
function always lands in the final `else` for a NaN input. -/
def compute_risk (severity : Option ℚ) : String :=
  if nanGt severity 400 then "High Risk"
  else if nanGt severity 200 then "Moderate Risk"
  else "Low Risk"

/-- `df.dropna(subset=REQUIRED_COLUMNS, how="all")` keeps a row iff at
least one of the seven required columns is non-null. -/
def keepRow (r : Row) : Bool :=
  r.pm10.isSome || r.pm2_5.isSome || r.carbon_monoxide.isSome ||
    r.nitrogen_dioxide.isSome || r.sulphur_dioxide.isSome || r.ozone.isSome ||
    r.uv_index.isSome

/-- An engineered output row: the base record plus the derived columns
added by `transform_raw_to_df` lines 73–76. -/
structure OutRow where
  base : Row
  AQI : Option String
  severity : Option ℚ
  risk : String
  hour : ℕ
deriving DecidableEq, Repr

/-- Row-wise derivation of the engineered columns (`transform.py` lines
73–76): AQI from pm2.5, severity from the metric columns, risk from the
severity, hour from the timestamp. -/
def enrich (r : Row) : OutRow :=
  { base := r
    AQI := compute_aqi r.pm2_5
    severity := compute_severity r
    risk := compute_risk (compute_severity r)
    hour := r.time % 24 }

/-- The part of `transform_raw_to_df` after record building (lines 67–77):
drop all-null rows, then derive the feature columns row-wise. -/
def engineerRecords (records : List Row) : List OutRow :=
  (records.filter keepRow).map enrich

/-- The hourly block of one raw JSON payload: a timestamp array and one
value array per metric, arrays aligned by index and possibly shorter than
the timestamp array. -/
structure Hourly where
  time : List ℕ
  pm10 : List (Option ℚ)
  pm2_5 : List (Option ℚ)
  carbon_monoxide : List (Option ℚ)
  nitrogen_dioxide : List (Option ℚ)
  sulphur_dioxide : List (Option ℚ)
  ozone : List (Option ℚ)
  uv_index : List (Option ℚ)

/-- One raw file as read by `transform_raw_to_df`: the city (from the file
name) and the optional `hourly` object (files without one are skipped). -/
structure RawFile where
  city : String
  hourly : Option Hourly

/-- `values[i] if i < len(values) else None`, where the stored value may
itself be null. -/
def colAt (values : List (Option ℚ)) (i : ℕ) : Option ℚ :=
  values.getD i none

/-- Record building of `transform_raw_to_df` (lines 45–66): one record per
timestamp of each readable file that has an `hourly` block. -/
def buildRecords (files : List RawFile) : List Row :=
  files.flatMap fun f =>
    match f.hourly with
    | none => []
    | some h =>
      (List.range h.time.length).map fun i =>
        { city := f.city
          time := h.time.getD i 0
          pm10 := colAt h.pm10 i
          pm2_5 := colAt h.pm2_5 i
          carbon_monoxide := colAt h.carbon_monoxide i
          nitrogen_dioxide := colAt h.nitrogen_dioxide i
          sulphur_dioxide := colAt h.sulphur_dioxide i
          ozone := colAt h.ozone i
          uv_index := colAt h.uv_index i }

/-- `transform_raw_to_df` (lines 45–77): build records from the raw files,
drop all-null rows, derive the feature columns. -/
def transform_raw_to_df (files : List RawFile) : List OutRow :=
  engineerRecords (buildRecords files)

end Transform

end AirQuality

namespace AirQuality

/-- A fully populated metric row used in concrete tests. -/
def sampleFullRow : Transform.Row :=
  { city := "Delhi", time := 13, pm10 := some 10, pm2_5 := some 20,
    carbon_monoxide := some 5, nitrogen_dioxide := some 4,
    sulphur_dioxide := some 3, ozone := some 2, uv_index := some 1 }

/-- `sampleFullRow` with the ozone metric missing (null). -/
def sampleNoOzoneRow : Transform.Row :=
  { sampleFullRow with ozone := none }

/-- A row whose six severity inputs are all null but whose uv_index is
present, so it survives `dropna(..., how="all")`. -/
def sampleUvOnlyRow : Transform.Row :=
  { city := "Delhi", time := 5, pm10 := none, pm2_5 := none,
    carbon_monoxide := none, nitrogen_dioxide := none,
    sulphur_dioxide := none, ozone := none, uv_index := some 1 }

namespace Load

/-- `BATCH_SIZE` constant of `load.py`. -/
def BATCH_SIZE : ℕ := 200

/-- `MAX_RETRIES` constant of `load.py`. -/
def MAX_RETRIES : ℕ := 2

/-- Python `range(0, stop, step)` for `step ≥ 1`: the multiples of `step`
below `stop`. -/
def pyRange (stop step : ℕ) : List ℕ :=
  (List.range ((stop + step - 1) / step)).map (fun k => k * step)

/-- The batch list of `load_to_supabase` (`load.py` line 165):
`[records[i:i + BATCH_SIZE] for i in range(0, len(records), batch_size)]`.
Note the slice width is the module constant `BATCH_SIZE` while the stride
is the `batch_size` parameter, exactly as in the source. -/
def makeBatches {α : Type} (records : List α) (batch_size : ℕ) : List (List α) :=
  (pyRange records.length batch_size).map (fun i => (records.drop i).take BATCH_SIZE)

/-- The retry loop of `insert_batch` (`load.py` lines 143–155): try the
insert while `attempt ≤ MAX_RETRIES` (so attempt counter values `0, 1, 2`
— up to three tries), return the batch length on the first success and `0`
once the tries are exhausted.  `ok a` tells whether the try made with
attempt counter `a` succeeds. -/
def insertTries (ok : ℕ → Bool) (len : ℕ) : ℕ → ℕ → ℕ
  | _, 0 => 0
  | attempt, r + 1 => if ok attempt then len else insertTries ok len (attempt + 1) r

/-- `insert_batch` (`load.py` lines 143–155). -/
def insert_batch {α : Type} (ok : ℕ → Bool) (batch : List α) : ℕ :=
  insertTries ok batch.length 0 (MAX_RETRIES + 1)

/-- Whether some try of a batch succeeds within the retry budget. -/
def batchSucceeds (ok : ℕ → Bool) : Bool :=
  ok 0 || ok 1 || ok 2

/-- The counters of `load_to_supabase` (`load.py` lines 157–171):
(rows attempted, rows inserted, rows skipped/failed), with
`failed = attempted - inserted` over the integers as printed by the
summary.  `ok idx a` tells whether batch number `idx` (1-based, as in
`enumerate(batches, start=1)`) succeeds at attempt counter `a`. -/
def load_to_supabase {α : Type} (records : List α) (batch_size : ℕ)
    (ok : ℕ → ℕ → Bool) : ℤ × ℤ × ℤ :=
  let batches := makeBatches records batch_size
  let total_inserted : ℤ :=
    (batches.enum.map (fun p => (insert_batch (ok (p.1 + 1)) p.2 : ℤ))).sum
  ((records.length : ℤ), total_inserted, (records.length : ℤ) - total_inserted)

end Load

namespace Extract

/-- `MAX_RETRIES` constant of `extract.py`. -/
def MAX_RETRIES : ℕ := 3

/-- `CITIES` of `extract.py` (the partition keys). -/
def CITIES : List String :=
  ["Delhi", "Bengaluru", "Hyderabad", "Mumbai", "Kolkata"]

/-- The outcome of `_fetch_city`: the returned result dict plus the
observable trace of the loop (number of attempts made, backoff delays
slept, in seconds). -/
structure FetchTrace where
  success : Bool
  raw_path : Option String
  error : Option String
  attempts : ℕ
  delays : List ℕ
deriving DecidableEq, Repr

/-- The retry loop of `_fetch_city` (`extract.py` lines 226–243):
`while attempt < MAX_RETRIES`, increment the attempt counter, try the
request (`att a` is the outcome of the `a`-th try, 1-based), return a
success dict on success; on a `RequestException` remember the error and
sleep `2 ** (attempt - 1)` seconds.  The fuel argument is the number of
loop iterations left, `MAX_RETRIES - attempt`. -/
def fetchLoop (att : ℕ → Except String String) :
    ℕ → Option String → List ℕ → ℕ → FetchTrace
  | attempt, lastError, delays, 0 =>
    { success := false, raw_path := none, error := lastError,
      attempts := attempt, delays := delays }
  | attempt, _, delays, fuel + 1 =>
    let a := attempt + 1
    match att a with
    | .ok path =>
      { success := true, raw_path := some path, error := none,
        attempts := a, delays := delays }
    | .error e =>
      fetchLoop att a (some e) (delays ++ [2 ^ (a - 1)]) fuel

/-- `_fetch_city` (`extract.py` lines 219–243): run the retry loop from
attempt counter `0` with no recorded error; exhausting the retries yields
the failure dict carrying the last error message — no exception escapes. -/
def fetch_city (att : ℕ → Except String String) : FetchTrace :=
  fetchLoop att 0 none [] MAX_RETRIES

/-- `fetch_all_cities` (`extract.py` lines 245–254): fetch every city in
order and collect one result per city; `att c` is city `c`'s per-attempt
oracle. -/
def fetch_all_cities (cities : List String)
    (att : String → ℕ → Except String String) : List (String × FetchTrace) :=
  cities.map (fun c => (c, fetch_city (att c)))

end Extract

namespace Pipeline

/-- The four stages the orchestrator can execute. -/
inductive Stage where
  | extract
  | transform
  | load
  | analyze
deriving DecidableEq, Repr

/-- Observable outcome of one `run_full_pipeline` call: the stages that
ran, in order, and the abort message printed when the pipeline exits
early. -/
structure PipelineRun where
  stages : List Stage
  abortReason : Option String
deriving DecidableEq, Repr

/-- `run_full_pipeline` (`run_pipeline.py` lines 12–33): extract, then
transform; if the transformed frame is empty, print the reason and
return before loading; otherwise load (batch size 200) and then run the
analysis.  `fetchAtt` and `insertOk` are the remote-call oracles of the
extract and load stages. -/
def run_full_pipeline (files : List Transform.RawFile)
    (fetchAtt : String → ℕ → Except String String)
    (insertOk : ℕ → ℕ → Bool) : PipelineRun :=
  let _results := Extract.fetch_all_cities Extract.CITIES fetchAtt
  let df := Transform.transform_raw_to_df files
  if df.isEmpty then
    { stages := [Stage.extract, Stage.transform],
      abortReason := some "No data to load. Exiting pipeline." }
  else
    let _loadResult := Load.load_to_supabase df 200 insertOk
    { stages := [Stage.extract, Stage.transform, Stage.load, Stage.analyze],
      abortReason := none }

end Pipeline

end AirQuality

namespace Churn

/-!
### `ETL Pipeline 2/scripts/transform.py`

The two categorical-bucketing features of `transform_data`
(lines 12–23): the tenure bands built with `pd.cut` and the
monthly-charges bands built with `np.select`.
-/

/-- One band of a `pd.cut` boundary table: lower edge, optional upper
edge (`none` = `float("inf")`), label.  With the default `right=True`
the interval is `(lo, hi]` (or `(lo, ∞)` for the last band). -/
def inBand (v : ℚ) : ℚ × Option ℚ × String → Bool
  | (lo, some hi, _) => decide (lo < v) && decide (v ≤ hi)
  | (lo, none, _) => decide (lo < v)

/-- The tenure boundary table declared by
`bins = [0, 12, 36, 60, float("inf")]`, `labels = ["New", "Regular",
"Loyal", "Champion"]` (lines 12–13). -/
def tenureBands : List (ℚ × Option ℚ × String) :=
  [(0, some 12, "New"), (12, some 36, "Regular"),
   (36, some 60, "Loyal"), (60, none, "Champion")]

/-- Generic `pd.cut` lookup: first band containing the value wins,
NaN input or a value outside all bands gives a null label. -/
def cutLookup (bands : List (ℚ × Option ℚ × String)) (x : Option ℚ) :
    Option String :=
  x.bind fun v => (bands.find? (inBand v)).map (fun b => b.2.2)

/-- `df["tenure_group"] = pd.cut(df["tenure"], bins=bins, labels=labels)`
(line 14). -/
def tenure_group (x : Option ℚ) : Option String :=
  cutLookup tenureBands x

/-- `np.select(conditions, choices, default)`: the choice of the first
true condition, else the default. -/
def np_select (conds : List Bool) (choices : List String)
    (default : String) : String :=
  match (conds.zip choices).find? (fun p => p.1) with
  | some p => p.2
  | none => default

/-- `df["MonthlyCharges_group"]` (lines 15–23):
`np.select([x < 30, x.between(30, 70), x > 70], ["Low", "Medium",
"High"], default="Unknown")`; a NaN monthly charge fails all three
conditions. -/
def monthlycharges_group (x : Option ℚ) : String :=
  np_select [nanLt x 30, nanBetween x 30 70, nanGt x 70]
    ["Low", "Medium", "High"] "Unknown"

/-- Modelled from the spec: "given a numeric value and an ordered set of
half-open/closed boundary ranges with labels, return the label of the
containing range; value outside all ranges or null → null label",
instantiated at the monthly-charges bands.  For comparison with
`monthlycharges_group`. -/
def monthlycharges_group_spec (x : Option ℚ) : Option String :=
  x.bind fun v =>
    if v < 30 then some "Low"
    else if v ≤ 70 then some "Medium"
    else some "High"

end Churn

namespace ChurnValidate

/-!
### `ETA pipeline 2/scripts/validate.py`

`validate_load` reconciles the staged CSV against the rows landed in the
remote table.  The remote frame is modelled columnar, which is how the
validator reads it; each cell is null, a string, or an integer.
-/

/-- One cell of the remote frame. -/
inductive DBVal where
  | null
  | str (s : String)
  | int (i : ℤ)
deriving DecidableEq, Repr

/-- The remote frame `pd.DataFrame(res.data)`: its row count, column
names, and the cells of each column. -/
structure DBFrame where
  nrows : ℕ
  columns : List String
  col : String → List DBVal

/-- One line of the printed validation summary. -/
inductive ReportItem where
  | missingCount (colName : String) (count : ℕ)
  | columnNotFound (colName : String)
  | rowCount (csvRows dbRows : ℕ) (matched : Bool)
  | groupCoverage (colName : String) (present missing : List String)
  | codeDomain (colName : String) (present invalid : List ℤ)
deriving DecidableEq, Repr

/-- Python `str.lower()` on an ASCII column name. -/
def pyLower (s : String) : String := String.mk (s.data.map Char.toLower)

/-- `isnull()` on one cell. -/
def isNullVal : DBVal → Bool
  | .null => true
  | _ => false

/-- `dropna()` keeping the string cells of a column. -/
def strVals (vs : List DBVal) : List String :=
  vs.filterMap fun v =>
    match v with
    | .str s => some s
    | _ => none

/-- `dropna().astype(int)` on a column of integer cells. -/
def intVals (vs : List DBVal) : List ℤ :=
  vs.filterMap fun v =>
    match v with
    | .int i => some i
    | _ => none

/-- The coverage check for a categorical column (checks 3 and 4 of
`validate_load`): present = distinct non-null values, missing =
expected − present; an absent column is a distinct "not found" item. -/
def coverageCheck (db : DBFrame) (colName : String)
    (expected : List String) : ReportItem :=
  if db.columns.contains colName then
    let present := (strVals (db.col colName)).dedup
    ReportItem.groupCoverage colName present
      (expected.filter (fun g => ! present.contains g))
  else ReportItem.columnNotFound colName

/-- `validate_load` (`validate.py` lines 14–70): the five checks, each
reported independently — three per-column null counts, the row-count
comparison, the two categorical coverage checks and the code-domain
check.  The function is total: a discrepancy becomes a report line,
never an exception. -/
def validate_load (csvRows : ℕ) (db : DBFrame) : List ReportItem :=
  (["tenure", "MonthlyCharges", "TotalCharges"].map fun c =>
    let cl := pyLower c
    if db.columns.contains cl then
      ReportItem.missingCount c ((db.col cl).countP isNullVal)
    else ReportItem.columnNotFound c)
  ++ [ReportItem.rowCount csvRows db.nrows (csvRows == db.nrows)]
  ++ [coverageCheck db "tenure_group" ["New", "Regular", "Loyal", "Champion"]]
  ++ [coverageCheck db "monthlycharges_group" ["Low", "Medium", "High"]]
  ++ [if db.columns.contains "contract_type_code" then
        let present := (intVals (db.col "contract_type_code")).dedup
        ReportItem.codeDomain "contract_type_code" present
          (present.filter (fun k => ! [(0 : ℤ), 1, 2].contains k))
      else ReportItem.columnNotFound "contract_type_code"]

/-- A remote frame holding 98 rows with every checked column present
(cells immaterial to the row-count check). -/
def db98 : DBFrame :=
  { nrows := 98
    columns := ["tenure", "monthlycharges", "totalcharges",
                "tenure_group", "monthlycharges_group", "contract_type_code"]
    col := fun _ => List.replicate 98 DBVal.null }

/-- A remote frame from which the engineered columns are absent. -/
def dbBare : DBFrame :=
  { nrows := 98
    columns := ["tenure", "monthlycharges", "totalcharges"]
    col := fun _ => List.replicate 98 DBVal.null }

end ChurnValidate

namespace AirQuality

namespace Load

/-- Whether the (1-based) indexed batch `p` succeeds under oracle `ok`. -/
def batchOk {α : Type} (ok : ℕ → ℕ → Bool) (p : ℕ × List α) : Bool :=
  batchSucceeds (ok (p.1 + 1))

/-- The rows of the batches whose insert succeeded within the retry
budget, in batch order. -/
def succeededRows {α : Type} (records : List α) (batch_size : ℕ)
    (ok : ℕ → ℕ → Bool) : List α :=
  (((makeBatches records batch_size).enum.filter (batchOk ok)).map Prod.snd).flatten

/-- The rows of the batches that exhausted their retries, in batch
order. -/
def failedRows {α : Type} (records : List α) (batch_size : ℕ)
    (ok : ℕ → ℕ → Bool) : List α :=
  (((makeBatches records batch_size).enum.filter
      (fun p => ! batchOk ok p)).map Prod.snd).flatten

end Load

/-- The record that `buildRecords` produces from index 1 of
`sampleSparseFile` below: only uv_index present. -/
def sampleMumbaiRow : Transform.Row :=
  { city := "Mumbai", time := 1, pm10 := none, pm2_5 := none,
    carbon_monoxide := none, nitrogen_dioxide := none,
    sulphur_dioxide := none, ozone := none, uv_index := some 1 }

/-- A raw file whose hourly block yields one fully populated record. -/
def sampleRawFile : Transform.RawFile :=
  { city := "Delhi"
    hourly := some
      { time := [13]
        pm10 := [some 10], pm2_5 := [some 20], carbon_monoxide := [some 5]
        nitrogen_dioxide := [some 4], sulphur_dioxide := [some 3]
        ozone := [some 2], uv_index := [some 1] } }

/-- A raw file whose hourly block yields one all-null record and one
record with only uv_index present: in the ozone column the first value is
null and the array is shorter than the timestamp array, so the second
record's uv_index comes from index fallback. -/
def sampleSparseFile : Transform.RawFile :=
  { city := "Mumbai"
    hourly := some
      { time := [0, 1]
        pm10 := [none, none], pm2_5 := [none, none]
        carbon_monoxide := [none, none], nitrogen_dioxide := [none, none]
        sulphur_dioxide := [none, none], ozone := [none]
        uv_index := [none, some 1] } }

end AirQuality

/-!
## Theorems

Helper lemmas first (shared infrastructure), then one theorem per claim.
-/

section BatchingLemmas

open AirQuality AirQuality.Load

theorem pyRange_zero (step : ℕ) : pyRange 0 step = [] := by
  have h : (0 + step - 1) / step = 0 := by
    rcases step with _ | s
    · simp
    · exact Nat.div_eq_of_lt (by omega)
  unfold pyRange
  rw [h]
  simp

theorem pyRange_pos {stop step : ℕ} (hstep : 0 < step) (hstop : 0 < stop) :
    pyRange stop step = 0 :: (pyRange (stop - step) step).map (fun i => i + step) := by
  have hq : (stop + step - 1) / step = (stop - step + step - 1) / step + 1 := by
    rcases le_or_lt stop step with h | h
    · have h0 : stop - step = 0 := by omega
      have h1 : (stop + step - 1) / step = 1 :=
        Nat.div_eq_of_lt_le (by omega) (by omega)
      have h2 : (0 + step - 1) / step = 0 := Nat.div_eq_of_lt (by omega)
      rw [h1, h0, h2]
    · have he : stop + step - 1 = (stop - step + step - 1) + step := by omega
      rw [he, Nat.add_div_right _ hstep]
  have hfun : ((fun k => k * step) ∘ Nat.succ) = ((fun i => i + step) ∘ (fun k => k * step)) := by
    funext k
    simp [Function.comp, Nat.succ_mul]
  calc pyRange stop step
      = (List.range ((stop - step + step - 1) / step + 1)).map (fun k => k * step) := by
        rw [pyRange, hq]
    _ = 0 :: ((List.range ((stop - step + step - 1) / step)).map Nat.succ).map
          (fun k => k * step) := by
        rw [List.range_succ_eq_map, List.map_cons, Nat.zero_mul]
    _ = 0 :: (pyRange (stop - step) step).map (fun i => i + step) := by
        rw [List.map_map, hfun, ← List.map_map]
        rfl

theorem flatten_slices {α : Type} {step : ℕ} (hstep : 0 < step) :
    ∀ (n : ℕ) (l : List α), l.length ≤ n →
      ((pyRange l.length step).map (fun i => (l.drop i).take step)).flatten = l := by
  intro n
  induction n with
  | zero =>
    intro l hl
    have h : l = [] := List.eq_nil_of_length_eq_zero (by omega)
    subst h
    simp [pyRange_zero]
  | succ n ih =>
    intro l hl
    rcases Nat.eq_zero_or_pos l.length with h0 | hpos
    · have h : l = [] := List.eq_nil_of_length_eq_zero h0
      subst h
      simp [pyRange_zero]
    · rw [pyRange_pos hstep hpos, List.map_cons, List.flatten_cons, List.drop_zero,
        List.map_map]
      have hcomp : ∀ i ∈ pyRange (l.length - step) step,
          ((fun i => (l.drop i).take step) ∘ (fun i => i + step)) i
            = (fun i => ((l.drop step).drop i).take step) i := by
        intro i _
        show (l.drop (i + step)).take step = ((l.drop step).drop i).take step
        rw [List.drop_drop, Nat.add_comm i step]
      rw [List.map_congr_left hcomp]
      have hlen : (l.drop step).length = l.length - step := List.length_drop _ _
      have hle : (l.drop step).length ≤ n := by
        rw [hlen]
        omega
      have hres := ih (l.drop step) hle
      rw [hlen] at hres
      rw [hres]
      exact List.take_append_drop step l

theorem makeBatches_flatten {α : Type} (l : List α) :
    (makeBatches l BATCH_SIZE).flatten = l := by
  have h := @flatten_slices α BATCH_SIZE (by norm_num [BATCH_SIZE])
    l.length l le_rfl
  unfold makeBatches
  exact h

theorem makeBatches_sumLengths {α : Type} (l : List α) :
    ((makeBatches l BATCH_SIZE).map List.length).sum = l.length := by
  rw [← List.length_flatten, makeBatches_flatten]

theorem makeBatches_size_le {α : Type} (l : List α) (bs : ℕ) :
    ∀ b ∈ makeBatches l bs, b.length ≤ BATCH_SIZE := by
  intro b hb
  simp only [makeBatches, List.mem_map] at hb
  obtain ⟨i, _, rfl⟩ := hb
  exact List.length_take_le BATCH_SIZE (l.drop i)

theorem makeBatches_length {α : Type} (l : List α) (bs : ℕ) :
    (makeBatches l bs).length = (l.length + bs - 1) / bs := by
  simp [makeBatches, pyRange]

theorem insert_batch_eq {α : Type} (ok : ℕ → Bool) (batch : List α) :
    insert_batch ok batch = if batchSucceeds ok then batch.length else 0 := by
  have h : insert_batch ok batch
      = if ok 0 then batch.length
        else if ok 1 then batch.length
        else if ok 2 then batch.length
        else 0 := rfl
  rw [h, batchSucceeds]
  cases h0 : ok 0 <;> cases h1 : ok 1 <;> cases h2 : ok 2 <;> simp [h0, h1, h2]

theorem list_sum_map_sub {β : Type} (l : List β) (f g : β → ℤ) :
    (l.map f).sum - (l.map g).sum = (l.map (fun x => f x - g x)).sum := by
  induction l with
  | nil => simp
  | cons x xs ih =>
    simp only [List.map_cons, List.sum_cons, ← ih]
    ring

theorem list_sum_filter_ite {β : Type} (l : List β) (p : β → Bool) (f : β → ℤ) :
    ((l.filter p).map f).sum = (l.map (fun x => if p x then f x else 0)).sum := by
  induction l with
  | nil => simp
  | cons x xs ih =>
    by_cases hp : p x <;> simp [List.filter_cons, hp, ih]

end BatchingLemmas

section LoaderClaims

open AirQuality AirQuality.Load

/-- C1: the claim fails on the code.  `load_to_supabase` slices
`records[i:i + BATCH_SIZE]` with the module constant while stepping by the
`batch_size` parameter, so for `batch_size = 1` and three records the
"batches" are `[[1,2,3],[2,3],[3]]`: they overlap, their concatenation is
not the original sequence, their sizes sum to 6 ≠ 3, and the first batch
exceeds the requested size — while the loader still counts 6 inserted
rows out of 3.  (With `batch_size = BATCH_SIZE` the intended partition
does hold, see the C3 theorem.) -/
theorem C1_slice_width_ignores_parameter :
    makeBatches [1, 2, 3] 1 = [[1, 2, 3], [2, 3], [3]]
    ∧ (makeBatches ([1, 2, 3] : List ℕ) 1).flatten ≠ [1, 2, 3]
    ∧ ¬ (∀ b ∈ makeBatches ([1, 2, 3] : List ℕ) 1, b.length ≤ 1)
    ∧ (makeBatches ([1, 2, 3] : List ℕ) 1).length = 3
    ∧ (load_to_supabase ([1, 2, 3] : List ℕ) 1 (fun _ _ => true)).2.1 = 6 := by
  decide

/-- C3: for every run of the loader (all runs use
`batch_size = BATCH_SIZE = 200`) the printed counters satisfy
attempted = inserted + failed; inserted counts exactly the rows of the
batches that succeeded within the retry budget and failed counts exactly
the rows of the batches that exhausted their retries; together those rows
are a permutation of the full record list (no row lost or duplicated);
and every one of the `⌈n/200⌉` batches is attempted no matter which
batches fail. -/
theorem C3_load_result_accounting {α : Type} (records : List α) (bs : ℕ)
    (hbs : bs = BATCH_SIZE) (ok : ℕ → ℕ → Bool) :
    (load_to_supabase records bs ok).1
        = (load_to_supabase records bs ok).2.1 + (load_to_supabase records bs ok).2.2
    ∧ (load_to_supabase records bs ok).2.1 = ((succeededRows records bs ok).length : ℤ)
    ∧ (load_to_supabase records bs ok).2.2 = ((failedRows records bs ok).length : ℤ)
    ∧ (succeededRows records bs ok ++ failedRows records bs ok).Perm records
    ∧ (makeBatches records bs).length = (records.length + bs - 1) / bs := by
  subst hbs
  have hins_def : (load_to_supabase records BATCH_SIZE ok).2.1
      = ((makeBatches records BATCH_SIZE).enum.map
          (fun p => (insert_batch (ok (p.1 + 1)) p.2 : ℤ))).sum := rfl
  have hstep1 : ((makeBatches records BATCH_SIZE).enum.map
        (fun p => (insert_batch (ok (p.1 + 1)) p.2 : ℤ))).sum
      = ((makeBatches records BATCH_SIZE).enum.map
          (fun p => if batchOk ok p then (p.2.length : ℤ) else 0)).sum := by
    apply congrArg List.sum
    apply List.map_congr_left
    intro p _
    rw [insert_batch_eq]
    rcases h : batchOk ok p with hv | hv
    · simp only [batchOk] at h
      simp [h]
    · simp only [batchOk] at h
      simp [h]
  have hsucc : ((succeededRows records BATCH_SIZE ok).length : ℤ)
      = (((makeBatches records BATCH_SIZE).enum.filter (batchOk ok)).map
          (fun p => (p.2.length : ℤ))).sum := by
    unfold succeededRows
    rw [List.length_flatten, List.map_map, Nat.cast_list_sum, List.map_map]
    rfl
  have hfailrows : ((failedRows records BATCH_SIZE ok).length : ℤ)
      = (((makeBatches records BATCH_SIZE).enum.filter
            (fun p => ! batchOk ok p)).map (fun p => (p.2.length : ℤ))).sum := by
    unfold failedRows
    rw [List.length_flatten, List.map_map, Nat.cast_list_sum, List.map_map]
    rfl
  have hins : (load_to_supabase records BATCH_SIZE ok).2.1
      = ((succeededRows records BATCH_SIZE ok).length : ℤ) := by
    rw [hins_def, hstep1, hsucc, list_sum_filter_ite]
  have hn : ((records.length : ℤ))
      = ((makeBatches records BATCH_SIZE).enum.map (fun p => (p.2.length : ℤ))).sum := by
    have h1 : ((makeBatches records BATCH_SIZE).enum.map Prod.snd)
        = makeBatches records BATCH_SIZE := List.enum_map_snd _
    calc ((records.length : ℕ) : ℤ)
        = ((((makeBatches records BATCH_SIZE).enum.map Prod.snd).map List.length).sum : ℤ) := by
          rw [h1, makeBatches_sumLengths]
      _ = ((makeBatches records BATCH_SIZE).enum.map (fun p => (p.2.length : ℤ))).sum := by
          rw [List.map_map, Nat.cast_list_sum, List.map_map]
          rfl
  have hfail : (load_to_supabase records BATCH_SIZE ok).2.2
      = ((failedRows records BATCH_SIZE ok).length : ℤ) := by
    have hd : (load_to_supabase records BATCH_SIZE ok).2.2
        = (records.length : ℤ) - (load_to_supabase records BATCH_SIZE ok).2.1 := rfl
    rw [hd, hins_def, hstep1, hn, list_sum_map_sub]
    have hpt : ∀ p ∈ (makeBatches records BATCH_SIZE).enum,
        ((p.2.length : ℤ) - if batchOk ok p then (p.2.length : ℤ) else 0)
          = (if (fun p => ! batchOk ok p) p then (p.2.length : ℤ) else 0) := by
      intro p _
      rcases hqp : batchOk ok p with hv | hv <;> simp [hqp]
    rw [List.map_congr_left hpt, ← list_sum_filter_ite, hfailrows]
  have hperm : (succeededRows records BATCH_SIZE ok
      ++ failedRows records BATCH_SIZE ok).Perm records := by
    have h2 := List.filter_append_perm (batchOk ok) (makeBatches records BATCH_SIZE).enum
    have h4 : (((makeBatches records BATCH_SIZE).enum.map Prod.snd).flatten) = records := by
      rw [List.enum_map_snd, makeBatches_flatten]
    have h5 := (h2.map Prod.snd).flatten
    rw [h4] at h5
    rw [List.map_append, List.flatten_append] at h5
    exact h5
  refine ⟨by rw [show (load_to_supabase records BATCH_SIZE ok).1 = (records.length : ℤ) from rfl,
      show (load_to_supabase records BATCH_SIZE ok).2.2
        = (records.length : ℤ) - (load_to_supabase records BATCH_SIZE ok).2.1 from rfl]; ring,
    hins, hfail, hperm, makeBatches_length records BATCH_SIZE⟩

/-- Witness for C3 at a concrete run: three records, batch size 200, an
oracle that always fails. -/
theorem C3_load_result_accounting_witness :
    (load_to_supabase ([1, 2, 3] : List ℕ) 200 (fun _ _ => false)).1
        = (load_to_supabase ([1, 2, 3] : List ℕ) 200 (fun _ _ => false)).2.1
          + (load_to_supabase ([1, 2, 3] : List ℕ) 200 (fun _ _ => false)).2.2 :=
  (C3_load_result_accounting ([1, 2, 3] : List ℕ) 200 (by decide) (fun _ _ => false)).1

end LoaderClaims

section TransformClaims

open AirQuality AirQuality.Transform

/-- C2: the claim fails on the code.  In the pipeline every metric key is
present on the row (the record builder materialises all required columns,
and `pd.to_numeric` turns missing values into NaN), so `row.get(col, 0)`
returns the stored NaN rather than the default `0`, and the weighted sum
propagates NaN: a row identical to a complete row except for a missing
ozone value has a null severity score, not a score lower by
`3 * ozone`.  The zero-fill score demanded by the claim would be
`174 - 6 = 168` on this pair of rows, and the code does agree with the
weighted sum on fully populated rows. -/
theorem C2_missing_ozone_yields_null_severity :
    compute_severity sampleNoOzoneRow = none
    ∧ compute_severity sampleFullRow = some (severity_zero_fill sampleFullRow)
    ∧ severity_zero_fill sampleFullRow = 174
    ∧ severity_zero_fill sampleNoOzoneRow = severity_zero_fill sampleFullRow - 3 * 2 := by
  refine ⟨rfl, ?_, ?_, ?_⟩
  · norm_num [compute_severity, nanMul, nanAdd, severity_zero_fill, AirQuality.sampleFullRow]
  · norm_num [severity_zero_fill, AirQuality.sampleFullRow]
  · norm_num [severity_zero_fill, AirQuality.sampleFullRow, AirQuality.sampleNoOzoneRow]

/-- C5 counterexample: a row whose six severity inputs are all null but
whose uv_index is present survives `dropna(..., how="all")`, gets a null
severity, and is classified with the definite label "Low Risk" — not the
null risk class the claim requires. -/
theorem C5_all_null_severity_gets_low_risk :
    keepRow sampleUvOnlyRow = true
    ∧ compute_severity sampleUvOnlyRow = none
    ∧ compute_risk (compute_severity sampleUvOnlyRow) = "Low Risk"
    ∧ (engineerRecords [sampleUvOnlyRow]).map OutRow.risk = ["Low Risk"] := by
  decide

/-- C5 amended: each derived field is a pure function of the same row's
metrics; a null pm2.5 yields a null AQI category and (since NaN
propagates through the weighted sum) a null severity — but the risk
class is never null: NaN compares false against every threshold, so a
row whose severity is null is labelled "Low Risk". -/
theorem C5_null_metric_handling (r : Row) (hnull : r.pm2_5 = none) :
    compute_aqi r.pm2_5 = none
    ∧ compute_severity r = none
    ∧ compute_risk (compute_severity r) = "Low Risk" := by
  have hsev : compute_severity r = none := by
    simp [compute_severity, hnull, nanMul, nanAdd]
  refine ⟨by rw [hnull]; rfl, hsev, ?_⟩
  rw [hsev]
  rfl

/-- Witness for C5 at the concrete all-null-severity row. -/
theorem C5_null_metric_handling_witness :
    compute_aqi sampleUvOnlyRow.pm2_5 = none
    ∧ compute_severity sampleUvOnlyRow = none
    ∧ compute_risk (compute_severity sampleUvOnlyRow) = "Low Risk" :=
  C5_null_metric_handling sampleUvOnlyRow rfl

/-- C7: the feature engine of `transform_raw_to_df` is a pure function —
re-running it on identical input yields identical output — and it is
row-wise: the engineered rows of an appended record set are the appended
engineered rows (so one row's derived fields do not depend on the
presence of other rows), and permuting the input rows permutes the
output rows without changing any row's derived fields. -/
theorem C7_feature_engine_pure_and_rowwise :
    (∀ files : List RawFile, transform_raw_to_df files = transform_raw_to_df files)
    ∧ (∀ recs₁ recs₂ : List Row,
        engineerRecords (recs₁ ++ recs₂) = engineerRecords recs₁ ++ engineerRecords recs₂)
    ∧ (∀ recs₁ recs₂ : List Row, recs₁.Perm recs₂ →
        (engineerRecords recs₁).Perm (engineerRecords recs₂)) := by
  refine ⟨fun _ => rfl, fun a b => ?_, fun a b h => ?_⟩
  · simp [engineerRecords, List.filter_append]
  · exact List.Perm.map enrich (List.Perm.filter keepRow h)

/-- Witness for C7 at a concrete two-row permutation. -/
theorem C7_feature_engine_pure_and_rowwise_witness :
    (engineerRecords [AirQuality.sampleFullRow, AirQuality.sampleUvOnlyRow]).Perm
      (engineerRecords [AirQuality.sampleUvOnlyRow, AirQuality.sampleFullRow]) :=
  C7_feature_engine_pure_and_rowwise.2.2
    [AirQuality.sampleFullRow, AirQuality.sampleUvOnlyRow]
    [AirQuality.sampleUvOnlyRow, AirQuality.sampleFullRow] (by decide)

/-- C10: every row of the engineered output has at least one non-null
value among the seven required metric columns; the all-null rows were
removed by `dropna(subset=REQUIRED_COLUMNS, how="all")` before the
derived fields were computed. -/
theorem C10_output_rows_have_a_nonnull_metric
    (files : List RawFile) (r : OutRow) (hr : r ∈ transform_raw_to_df files) :
    r.base.pm10 ≠ none ∨ r.base.pm2_5 ≠ none ∨ r.base.carbon_monoxide ≠ none ∨
      r.base.nitrogen_dioxide ≠ none ∨ r.base.sulphur_dioxide ≠ none ∨
      r.base.ozone ≠ none ∨ r.base.uv_index ≠ none := by
  unfold transform_raw_to_df engineerRecords at hr
  rcases List.mem_map.mp hr with ⟨s, hs, rfl⟩
  have hk : keepRow s = true := List.of_mem_filter hs
  simp only [keepRow, Bool.or_eq_true, Option.isSome_iff_ne_none] at hk
  simp only [enrich]
  tauto

/-- Witness for C10: the sparse sample file yields exactly one output
row (the all-null record is dropped), and that row has its uv_index
present. -/
theorem C10_output_rows_have_a_nonnull_metric_witness :
    (enrich AirQuality.sampleMumbaiRow).base.pm10 ≠ none
    ∨ (enrich AirQuality.sampleMumbaiRow).base.pm2_5 ≠ none
    ∨ (enrich AirQuality.sampleMumbaiRow).base.carbon_monoxide ≠ none
    ∨ (enrich AirQuality.sampleMumbaiRow).base.nitrogen_dioxide ≠ none
    ∨ (enrich AirQuality.sampleMumbaiRow).base.sulphur_dioxide ≠ none
    ∨ (enrich AirQuality.sampleMumbaiRow).base.ozone ≠ none
    ∨ (enrich AirQuality.sampleMumbaiRow).base.uv_index ≠ none :=
  C10_output_rows_have_a_nonnull_metric [AirQuality.sampleSparseFile] _ (by decide)

end TransformClaims

section ExtractClaims

open AirQuality AirQuality.Extract

theorem fetchLoop_attempts_le (att : ℕ → Except String String) :
    ∀ (fuel attempt : ℕ) (last : Option String) (delays : List ℕ),
      (fetchLoop att attempt last delays fuel).attempts ≤ attempt + fuel := by
  intro fuel
  induction fuel with
  | zero =>
    intro attempt last delays
    exact Nat.le_of_eq rfl
  | succ n ih =>
    intro attempt last delays
    have hstep : fetchLoop att attempt last delays (n + 1)
        = (match att (attempt + 1) with
           | .ok path =>
             { success := true, raw_path := some path, error := none,
               attempts := attempt + 1, delays := delays }
           | .error e =>
             fetchLoop att (attempt + 1) (some e)
               (delays ++ [2 ^ (attempt + 1 - 1)]) n) := rfl
    rw [hstep]
    cases h : att (attempt + 1) with
    | error e => exact le_trans (ih (attempt + 1) (some e) _) (by omega)
    | ok p => simp

theorem fetch_city_all_fail (att : ℕ → Except String String) (e : ℕ → String)
    (hfail : ∀ k, att k = Except.error (e k)) :
    fetch_city att
      = { success := false, raw_path := none, error := some (e 3),
          attempts := 3, delays := [1, 2, 4] } := by
  have e1 : fetch_city att = fetchLoop att 1 (some (e 1)) [1] 2 := by
    have h : fetch_city att
        = (match att 1 with
           | .ok path =>
             ({ success := true, raw_path := some path, error := none,
                attempts := 1, delays := [] } : FetchTrace)
           | .error er => fetchLoop att 1 (some er) ([] ++ [2 ^ (1 - 1)]) 2) := rfl
    rw [h, hfail 1]
    rfl
  have e2 : fetchLoop att 1 (some (e 1)) [1] 2 = fetchLoop att 2 (some (e 2)) [1, 2] 1 := by
    have h : fetchLoop att 1 (some (e 1)) [1] 2
        = (match att 2 with
           | .ok path =>
             ({ success := true, raw_path := some path, error := none,
                attempts := 2, delays := [1] } : FetchTrace)
           | .error er => fetchLoop att 2 (some er) ([1] ++ [2 ^ (2 - 1)]) 1) := rfl
    rw [h, hfail 2]
    rfl
  have e3 : fetchLoop att 2 (some (e 2)) [1, 2] 1
      = ({ success := false, raw_path := none, error := some (e 3),
           attempts := 3, delays := [1, 2, 4] } : FetchTrace) := by
    have h : fetchLoop att 2 (some (e 2)) [1, 2] 1
        = (match att 3 with
           | .ok path =>
             ({ success := true, raw_path := some path, error := none,
                attempts := 3, delays := [1, 2] } : FetchTrace)
           | .error er => fetchLoop att 3 (some er) ([1, 2] ++ [2 ^ (3 - 1)]) 0) := rfl
    rw [h, hfail 3]
    rfl
  rw [e1, e2, e3]

/-- C4: the fetcher tries a partition's remote call at most
`MAX_RETRIES = 3` times; when every attempt fails it returns a result
marked failed that carries the last error message, having slept the
exponential backoff delays 1 s, 2 s, 4 s — the failure is a returned
value, not an exception; and `fetch_all_cities` produces one result per
city, each the fetch of that city's own oracle, so one partition's
permanent failure cannot abort the others. -/
theorem C4_fetch_retry_backoff_isolation :
    (∀ att, (fetch_city att).attempts ≤ 3)
    ∧ (∀ att (e : ℕ → String), (∀ k, att k = Except.error (e k)) →
        fetch_city att
          = { success := false, raw_path := none, error := some (e 3),
              attempts := 3, delays := [1, 2, 4] })
    ∧ (∀ cities (att : String → ℕ → Except String String),
        (fetch_all_cities cities att).length = cities.length)
    ∧ (∀ cities (att : String → ℕ → Except String String) c, c ∈ cities →
        (c, fetch_city (att c)) ∈ fetch_all_cities cities att) := by
  refine ⟨fun att => fetchLoop_attempts_le att MAX_RETRIES 0 none [],
    fun att e hf => fetch_city_all_fail att e hf,
    fun cities att => List.length_map cities _,
    fun cities att c hc => List.mem_map_of_mem _ hc⟩

/-- Witness for C4: an oracle that always fails with "timeout" exhausts
the three attempts, sleeps 1 s, 2 s, 4 s, and returns the failed result
carrying the last error. -/
theorem C4_fetch_retry_backoff_isolation_witness :
    fetch_city (fun _ => Except.error "timeout")
      = { success := false, raw_path := none, error := some "timeout",
          attempts := 3, delays := [1, 2, 4] } :=
  C4_fetch_retry_backoff_isolation.2.1 (fun _ => Except.error "timeout")
    (fun _ => "timeout") (fun _ => rfl)

end ExtractClaims

section PipelineClaims

open AirQuality AirQuality.Pipeline

/-- C6: every run of the orchestrator executes Extract and then
Transform unconditionally; it proceeds to Load exactly when the
engineered row set is non-empty and otherwise stops with a reported
reason before loading; whenever Load runs, Analyze runs too; and the
executed stages do not depend on the load oracle at all, so partial (or
even total) load failure never prevents the Analyze stage. -/
theorem C6_orchestrator_transitions (files : List Transform.RawFile)
    (fa : String → ℕ → Except String String) (ok : ℕ → ℕ → Bool) :
    ((run_full_pipeline files fa ok).stages.take 2 = [Stage.extract, Stage.transform])
    ∧ (Stage.load ∈ (run_full_pipeline files fa ok).stages
        ↔ Transform.transform_raw_to_df files ≠ [])
    ∧ ((run_full_pipeline files fa ok).abortReason.isSome
        ↔ Transform.transform_raw_to_df files = [])
    ∧ (Stage.load ∈ (run_full_pipeline files fa ok).stages
        → Stage.analyze ∈ (run_full_pipeline files fa ok).stages)
    ∧ (∀ ok', run_full_pipeline files fa ok' = run_full_pipeline files fa ok) := by
  unfold run_full_pipeline
  cases hdf : Transform.transform_raw_to_df files with
  | nil => simp [hdf]
  | cons r rs => simp [hdf]

/-- Witness for C6: with the fully populated sample file the transform
output is non-empty, Load runs, and therefore Analyze runs. -/
theorem C6_orchestrator_transitions_witness :
    Stage.analyze ∈ (run_full_pipeline [AirQuality.sampleRawFile]
      (fun _ _ => Except.error "down") (fun _ _ => false)).stages :=
  (C6_orchestrator_transitions [AirQuality.sampleRawFile]
      (fun _ _ => Except.error "down") (fun _ _ => false)).2.2.2.1 (by decide)

end PipelineClaims

section ChurnClaims

open Churn

/-- C8 counterexample: the claim requires a null value to yield a null
label, but `np.select` maps a null MonthlyCharges to the default label
"Unknown" (a NaN fails all three conditions), not to a null label — the
spec-modelled bucketing yields `none` there. -/
theorem C8_null_monthly_charge_gets_unknown :
    monthlycharges_group none = "Unknown"
    ∧ monthlycharges_group_spec none = none :=
  ⟨rfl, rfl⟩

/-- C8 amended: the tenure boundary table is deterministic — any value
lies in at most one band, and the boundary value 12 lies exactly in
"New" (the bands are right-closed); a null tenure or a tenure outside
every band (≤ 0) yields a null label.  The monthly-charges bucketing
assigns every non-null value by first matching condition (`< 30` → Low,
`≤ 70` → Medium, else High), but a null value receives the default
label "Unknown" rather than a null label. -/
theorem C8_bucketing_boundaries :
    (∀ v : ℚ, ∀ b₁ b₂, b₁ ∈ tenureBands → b₂ ∈ tenureBands →
        inBand v b₁ = true → inBand v b₂ = true → b₁ = b₂)
    ∧ tenure_group (some 12) = some "New"
    ∧ tenure_group none = none
    ∧ (∀ v : ℚ, v ≤ 0 → tenure_group (some v) = none)
    ∧ monthlycharges_group none = "Unknown"
    ∧ (∀ v : ℚ, monthlycharges_group (some v)
        = (if v < 30 then "Low" else if v ≤ 70 then "Medium" else "High")) := by
  refine ⟨?_, ?_, rfl, ?_, rfl, ?_⟩
  · intro v b₁ b₂ h₁ h₂ hv₁ hv₂
    fin_cases h₁ <;> fin_cases h₂ <;>
      first
      | rfl
      | (exfalso
         simp only [inBand, Bool.and_eq_true, decide_eq_true_eq] at hv₁ hv₂
         linarith [hv₁, hv₂])
  · norm_num [tenure_group, cutLookup, tenureBands, inBand, List.find?]
  · intro v hv
    have n1 : ¬ (0 : ℚ) < v := by linarith
    have n2 : ¬ (12 : ℚ) < v := by linarith
    have n3 : ¬ (36 : ℚ) < v := by linarith
    have n4 : ¬ (60 : ℚ) < v := by linarith
    simp [tenure_group, cutLookup, tenureBands, inBand, List.find?, n1, n2, n3, n4]
  · intro v
    by_cases h30 : v < 30
    · simp [monthlycharges_group, np_select, nanLt, nanBetween, nanGt, List.find?, h30]
    · by_cases h70 : v ≤ 70
      · have h30l : (30 : ℚ) ≤ v := not_lt.mp h30
        have hng : ¬ (70 : ℚ) < v := by linarith
        simp [monthlycharges_group, np_select, nanLt, nanBetween, nanGt, List.find?,
          h30, h70, h30l, hng]
      · have hgt : (70 : ℚ) < v := not_le.mp h70
        simp [monthlycharges_group, np_select, nanLt, nanBetween, nanGt, List.find?,
          h30, h70, hgt]

/-- Witness for C8: tenure 0 lies outside every band and gets a null
label, and a monthly charge of 12 gets the first matching label "Low". -/
theorem C8_bucketing_boundaries_witness :
    tenure_group (some 0) = none ∧ monthlycharges_group (some 12) = "Low" := by
  refine ⟨C8_bucketing_boundaries.2.2.2.1 0 le_rfl, ?_⟩
  have h := C8_bucketing_boundaries.2.2.2.2.2 12
  rw [h]
  norm_num

end ChurnClaims

section ValidateClaims

open ChurnValidate

set_option maxRecDepth 4000 in
/-- C9: the validator reports all five checks independently — the
report always has exactly 7 lines, whatever the frames hold (and the
function is total: a discrepancy is a report line, never an
exception).  Concretely, staging 100 rows against a remote set of 98
yields the row-count mismatch line `rowCount 100 98 false` among the
other reports, and when the engineered columns are absent from the
remote frame each is reported as a distinct "column not found" line
instead of a coverage pass. -/
theorem C9_validator_reports_each_check :
    (∀ (n : ℕ) (db : DBFrame), (validate_load n db).length = 7)
    ∧ validate_load 100 db98
        = [ReportItem.missingCount "tenure" 98,
           ReportItem.missingCount "MonthlyCharges" 98,
           ReportItem.missingCount "TotalCharges" 98,
           ReportItem.rowCount 100 98 false,
           ReportItem.groupCoverage "tenure_group" [] ["New", "Regular", "Loyal", "Champion"],
           ReportItem.groupCoverage "monthlycharges_group" [] ["Low", "Medium", "High"],
           ReportItem.codeDomain "contract_type_code" [] []]
    ∧ validate_load 100 dbBare
        = [ReportItem.missingCount "tenure" 98,
           ReportItem.missingCount "MonthlyCharges" 98,
           ReportItem.missingCount "TotalCharges" 98,
           ReportItem.rowCount 100 98 false,
           ReportItem.columnNotFound "tenure_group",
           ReportItem.columnNotFound "monthlycharges_group",
           ReportItem.columnNotFound "contract_type_code"] := by
  refine ⟨?_, by decide, by decide⟩
  intro n db
  simp [validate_load]

end ValidateClaims
